import Mathlib

/-
Verification of the SEthernet driver core (receive path, transmit path,
interrupt dispatcher) against its natural-language specification.

The development shallowly embeds the C sources:
  - software/driver/isr.c        (variant "C" below)
  - unnamed/part_000             (variant "P0" below; a second revision of isr.c)
  - unnamed/part_001             (doEWrite, driverControl)
Machine 16-bit / 32-bit arithmetic is modelled on Nat with explicit mod;
hardware side effects are recorded as explicit event lists.
-/

namespace SEthernet

/-- The SWAPBYTES macro on a 16-bit value: exchange high and low byte. -/
def swap16 (n : Nat) : Nat := (n % 256) * 256 + (n / 256) % 256

/-- C unsigned-short subtraction (wraps modulo 2^16). -/
def sub16 (a b : Nat) : Nat := (a % 65536 + 65536 - b % 65536) % 65536

/-- Conversion of a C signed short value to unsigned long (modulo 2^32),
as happens when a short WDS entry length is added to an unsigned long. -/
def intToU32 (e : Int) : Nat := (e % 4294967296).toNat

/-- Truncation of a size to a C signed short, as in the cast
`(short) sizeof(theGlobals->info)`. -/
def toShort (n : Nat) : Int := ((n : Int) + 32768) % 65536 - 32768

/-- Mac OS error code noErr. -/
def noErr : Int := 0

/-- Mac OS error code eLenErr (frame-length error). -/
def eLenErr : Int := -92

/-- Mac OS error code excessCollsns, used by the transmit-abort path. -/
def excessCollsns : Int := -95

/-- Protocol number assigned to 802.2 Type 1 frames (ethertype < 0x600). -/
def phProtocolPhaseII : Nat := 0

/-- An ethernet address, a list of 6 bytes. -/
abbrev EthAddr := List Nat

/-- Receive status vector of a ring descriptor, as used by handlePacket:
the little-endian stored packet length and the filter-match flag bits. -/
structure RSV where
  pkt_len_le : Nat
  crcErr : Bool
  unicast : Bool
  broadcast : Bool
  multicast : Bool
  hashMatch : Bool
deriving DecidableEq

/-- A ring descriptor as copied into the Receive Header Area: next-packet
pointer (little-endian, ring-relative), status vector, and the fields of the
embedded ethernet header used by handlePacket. -/
structure RingDescriptor where
  nextPkt_le : Nat
  rsv : RSV
  dest : EthAddr
  protocol : Nat
deriving DecidableEq

/-- One slot of the protocol-handler table; `handler = none` models a nil
handler callback. -/
structure PHEntry where
  ethertype : Nat
  handler : Option Nat
deriving DecidableEq

/-- Modelled from the spec: findPH of protocolhandler.c is not under src/;
spec section 4.5 defines find(id) as a linear scan of the fixed-capacity
table returning no-match as a distinguished outcome. -/
def findPH (pt : List PHEntry) (ety : Nat) : Option PHEntry :=
  pt.find? (fun e => e.ethertype == ety)

/-- Modelled from the spec: findMulticastEntry of multicast.c is not under
src/; spec section 4.6 defines contains(address) as an exact-match lookup in
the multicast table, which handlePacket uses as a boolean. -/
def findMulticastEntry (mc : List EthAddr) (dest : EthAddr) : Bool :=
  mc.any (fun a => a == dest)

/-- The driver statistics/info counters touched by the embedded code. -/
structure DriverStats where
  rxPendingPacketsHWM : Nat := 0
  rxPendingBytesHWM : Nat := 0
  fcsErrors : Nat := 0
  rxRunt : Nat := 0
  rxTooLong : Nat := 0
  broadcastRxFrameCount : Nat := 0
  multicastRxFrameCount : Nat := 0
  rxUnwanted : Nat := 0
  rxUnknownProto : Nat := 0
  rxFrameCount : Nat := 0
  txFrameCount : Nat := 0
  deferredFrames : Nat := 0
  collisionFrames : Nat := 0
  singleCollisionFrames : Nat := 0
  multiCollisionFrames : Nat := 0
  excessiveDeferrals : Nat := 0
  excessiveCollisions : Nat := 0
  lateCollisions : Nat := 0
  internalTxErrors : Nat := 0
  internalRxErrors : Nat := 0
deriving DecidableEq

/-- Hardware side effects of one handlePacket invocation: ring read-pointer
updates (argument of enc624j600_update_rxptr, as a ring address), number of
calls to enc624j600_decrement_rx_pending_count, and protocol-handler
invocations as (handler, payload length) pairs. -/
structure RxEffects where
  rxptrUpdates : List Nat
  decrements : Nat
  handlerCalls : List (Nat × Nat)
deriving DecidableEq

/-- The FIFO high-water-mark statistics update at the top of handlePacket
(identical in both variants). -/
def updateHWM (pp bp : Nat) (info0 : DriverStats) : DriverStats :=
  let infoA := if pp > info0.rxPendingPacketsHWM
    then { info0 with rxPendingPacketsHWM := pp } else info0
  if bp > infoA.rxPendingBytesHWM
    then { infoA with rxPendingBytesHWM := bp } else infoA

/-- The `accept:` label block of part_000's handlePacket: select the
protocol identifier (0 for ethertype < 0x600), look it up; on a miss or a
nil handler count an unknown protocol and fall to the drop epilogue `fx`;
otherwise record a handler call with payload pktLen minus the 14-byte
ethernet header and count a received frame. -/
def acceptP0 (d : RingDescriptor) (pt : List PHEntry) (pktLen : Nat)
    (fx : RxEffects) (i : DriverStats) : DriverStats × RxEffects :=
  match (if d.protocol < 0x600 then findPH pt phProtocolPhaseII
    else findPH pt d.protocol) with
  | none => ({ i with rxUnknownProto := i.rxUnknownProto + 1 }, fx)
  | some e =>
    match e.handler with
    | none => ({ i with rxUnknownProto := i.rxUnknownProto + 1 }, fx)
    | some h =>
      ({ i with rxFrameCount := i.rxFrameCount + 1 },
       { fx with handlerCalls := [(h, sub16 pktLen 14)] })

/-- The `accept:` label block of isr.c's handlePacket: as acceptP0 but a
miss or nil handler increments no counter, and the payload is pktLen - 18. -/
def acceptC (d : RingDescriptor) (pt : List PHEntry) (pktLen : Nat)
    (fx : RxEffects) (i : DriverStats) : DriverStats × RxEffects :=
  match (if d.protocol < 0x600 then findPH pt phProtocolPhaseII
    else findPH pt d.protocol) with
  | none => (i, fx)
  | some e =>
    match e.handler with
    | none => (i, fx)
    | some h =>
      ({ i with rxFrameCount := i.rxFrameCount + 1 },
       { fx with handlerCalls := [(h, sub16 pktLen 18)] })

/-- handlePacket of unnamed/part_000. Inputs: the descriptor read from the
ring, the current pending-packet count and FIFO byte level, the multicast
table, the protocol-handler table, and the statistics block. Every branch
ends in the drop epilogue `dropFx` (advance the ring read pointer to the
stored next-packet location, decrement the pending count). -/
def handlePacketP0 (d : RingDescriptor) (pp bp : Nat) (mc : List EthAddr)
    (pt : List PHEntry) (info0 : DriverStats) : DriverStats × RxEffects :=
  -- record FIFO high-water-mark stats
  let info := updateHWM pp bp info0
  -- next-packet pointer, little-endian in chip address space
  let nextPacket := swap16 d.nextPkt_le
  -- packet length, little-endian, minus the 4-byte trailing checksum
  let pktLen := sub16 (swap16 d.rsv.pkt_len_le) 4
  let dropFx : RxEffects := ⟨[nextPacket], 1, []⟩
  let drop := fun (i : DriverStats) => (i, dropFx)
  let accept := acceptP0 d pt pktLen dropFx
  if d.rsv.crcErr then drop { info with fcsErrors := info.fcsErrors + 1 }
  else if pktLen < 60 then drop { info with rxRunt := info.rxRunt + 1 }
  else if pktLen > 1514 then drop { info with rxTooLong := info.rxTooLong + 1 }
  else if d.rsv.unicast then accept info
  else if d.rsv.broadcast then
    accept { info with broadcastRxFrameCount := info.broadcastRxFrameCount + 1 }
  else if d.rsv.multicast && d.rsv.hashMatch then
    accept { info with multicastRxFrameCount := info.multicastRxFrameCount + 1 }
  else drop { info with rxUnwanted := info.rxUnwanted + 1 }

/-- handlePacket of software/driver/isr.c. Differences from part_000: the
packet length is the raw byte-swapped RSV value (no -4), the runt/oversize
bounds are 64/1518, the multicast hash match is confirmed against the
multicast table, lookup misses increment no counter, and the handler payload
is pktLen - 18. -/
def handlePacketC (d : RingDescriptor) (pp bp : Nat) (mc : List EthAddr)
    (pt : List PHEntry) (info0 : DriverStats) : DriverStats × RxEffects :=
  let info := updateHWM pp bp info0
  let nextPacket := swap16 d.nextPkt_le
  let pktLen := swap16 d.rsv.pkt_len_le
  let dropFx : RxEffects := ⟨[nextPacket], 1, []⟩
  let drop := fun (i : DriverStats) => (i, dropFx)
  let accept := acceptC d pt pktLen dropFx
  if d.rsv.crcErr then drop { info with fcsErrors := info.fcsErrors + 1 }
  else if pktLen < 64 then drop { info with rxRunt := info.rxRunt + 1 }
  else if pktLen > 1518 then drop { info with rxTooLong := info.rxTooLong + 1 }
  else if d.rsv.unicast then accept info
  else if d.rsv.broadcast then
    accept { info with broadcastRxFrameCount := info.broadcastRxFrameCount + 1 }
  else if d.rsv.multicast && d.rsv.hashMatch then
    (if findMulticastEntry mc d.dest then
      accept { info with multicastRxFrameCount := info.multicastRxFrameCount + 1 }
    else drop { info with rxUnwanted := info.rxUnwanted + 1 })
  else drop { info with rxUnwanted := info.rxUnwanted + 1 }

/-- Contents of the ETXSTAT register as read by the transmit branches. -/
structure TxStat where
  deferBit : Bool
  colcnt : Nat
  exdefer : Bool
  maxcol : Bool
  latecol : Bool
deriving DecidableEq

/-- Controller-visible interrupt state: individual cause bits, the pending
packet counter (the IRQ_PKT cause is level-triggered on it being nonzero),
and the master interrupt-enable flag (IRQ_ENABLE). -/
structure ChipState where
  linkCause : Bool
  rxAbortCause : Bool
  pcntFullCause : Bool
  txCause : Bool
  txAbortCause : Bool
  pendingCount : Nat
  irqEnabled : Bool
deriving DecidableEq

/-- Observable ordered events of the interrupt dispatcher. -/
inductive IsrEv where
  | clearTx
  | clearTxAbort
  | clearLink
  | clearRxOverflow
  | ioDone (code : Int)
  | enableIRQ
  | disableIRQ
  | duplexSync
  | rxAdvance (addr : Nat)
  | deferUserFn
deriving DecidableEq

/-- Transmit-complete statistics update (common to both userISR variants). -/
def txCompleteStats (ts : TxStat) (info : DriverStats) : DriverStats :=
  let i1 := if ts.deferBit
    then { info with deferredFrames := info.deferredFrames + 1 } else info
  let i2 := if ts.colcnt ≥ 1 then
      let ic := { i1 with collisionFrames := i1.collisionFrames + 1 }
      if ts.colcnt = 1
        then { ic with singleCollisionFrames := ic.singleCollisionFrames + 1 }
        else { ic with multiCollisionFrames := ic.multiCollisionFrames + 1 }
    else i1
  { i2 with txFrameCount := i2.txFrameCount + 1 }

/-- Transmit-abort statistics update, classifying by ETXSTAT bits in fixed
precedence (common to both userISR variants). -/
def txAbortStats (ts : TxStat) (info : DriverStats) : DriverStats :=
  if ts.exdefer then
    { info with excessiveDeferrals := info.excessiveDeferrals + 1 }
  else if ts.maxcol then
    { info with excessiveCollisions := info.excessiveCollisions + 1 }
  else if ts.latecol then
    { info with lateCollisions := info.lateCollisions + 1 }
  else { info with internalTxErrors := info.internalTxErrors + 1 }

/-- The receive drain loop of userISR: while IRQ_PKT is asserted (pending
count nonzero) call handlePacket, which decrements the count by one each
time, so the loop runs exactly pendingCount times. `hp` is the handlePacket
variant; `pkts` and `bytes` supply the descriptor and FIFO byte level seen
on the i-th iteration. -/
def drainRx
    (hp : RingDescriptor → Nat → Nat → List EthAddr → List PHEntry →
      DriverStats → DriverStats × RxEffects)
    (fuel : Nat) (pkts : Nat → RingDescriptor) (bytes : Nat → Nat) (idx : Nat)
    (mc : List EthAddr) (pt : List PHEntry) (info : DriverStats) :
    DriverStats × List IsrEv :=
  match fuel with
  | 0 => (info, [])
  | n + 1 =>
    let r := hp (pkts idx) (n + 1) (bytes idx) mc pt info
    let rest := drainRx hp n pkts bytes (idx + 1) mc pt r.1
    (rest.1, r.2.rxptrUpdates.map IsrEv.rxAdvance ++ rest.2)

/-- userISR of software/driver/isr.c: the transmit-complete branch calls
IODone and then clears IRQ_TX; the transmit-abort branch is an independent
if; then pending packets are drained and interrupts re-enabled. -/
def userISRC (st : ChipState) (ts : TxStat) (pkts : Nat → RingDescriptor)
    (bytes : Nat → Nat) (mc : List EthAddr) (pt : List PHEntry)
    (info0 : DriverStats) : ChipState × DriverStats × List IsrEv :=
  let txPart :=
    if st.txCause then
      (txCompleteStats ts info0, [IsrEv.ioDone noErr, IsrEv.clearTx],
       { st with txCause := false })
    else (info0, [], st)
  let abortPart :=
    if st.txAbortCause then
      (txAbortStats ts txPart.1,
       [IsrEv.ioDone excessCollsns, IsrEv.clearTxAbort],
       { txPart.2.2 with txAbortCause := false })
    else (txPart.1, [], txPart.2.2)
  let drained := drainRx handlePacketC st.pendingCount pkts bytes 0 mc pt
    abortPart.1
  ({ abortPart.2.2 with pendingCount := 0, irqEnabled := true },
   drained.1,
   txPart.2.1 ++ abortPart.2.1 ++ drained.2 ++ [IsrEv.enableIRQ])

/-- userISR of unnamed/part_000: the transmit-complete branch clears IRQ_TX
before calling IODone; the transmit-abort branch is an else-if of the
transmit-complete branch; then pending packets are drained and interrupts
re-enabled. -/
def userISRP0 (st : ChipState) (ts : TxStat) (pkts : Nat → RingDescriptor)
    (bytes : Nat → Nat) (mc : List EthAddr) (pt : List PHEntry)
    (info0 : DriverStats) : ChipState × DriverStats × List IsrEv :=
  let txPart :=
    if st.txCause then
      (txCompleteStats ts info0, [IsrEv.clearTx, IsrEv.ioDone noErr],
       { st with txCause := false })
    else if st.txAbortCause then
      (txAbortStats ts info0,
       [IsrEv.clearTxAbort, IsrEv.ioDone excessCollsns],
       { st with txAbortCause := false })
    else (info0, [], st)
  let drained := drainRx handlePacketP0 st.pendingCount pkts bytes 0 mc pt
    txPart.1
  ({ txPart.2.2 with pendingCount := 0, irqEnabled := true },
   drained.1,
   txPart.2.1 ++ drained.2 ++ [IsrEv.enableIRQ])

/-- Result of one top-half dispatch: the D0 return value (1 = handled,
0 = not handled), the final controller state, statistics, and event trace. -/
structure DispatchResult where
  ret : Nat
  chip : ChipState
  info : DriverStats
  events : List IsrEv
deriving DecidableEq

/-- _driverISR of software/driver/isr.c. `usingVM` is theGlobals->usingVM;
`deferOK` models whether DeferUserFn returns noErr. On a deferral refusal
the code re-enables interrupts and returns 0 without touching the cause
bits; on successful deferral it returns 1 with interrupts still masked
(userISR, modelled separately, runs later). -/
def driverISRC (st0 : ChipState) (usingVM deferOK : Bool) (ts : TxStat)
    (pkts : Nat → RingDescriptor) (bytes : Nat → Nat) (mc : List EthAddr)
    (pt : List PHEntry) (info0 : DriverStats) : DispatchResult :=
  let st1 := { st0 with irqEnabled := false }
  let ev1 := [IsrEv.disableIRQ]
  -- irq_status snapshot, taken once
  let sLink := st0.linkCause
  let sRx := st0.rxAbortCause || st0.pcntFullCause
  let sUser := st0.txCause || st0.txAbortCause || decide (st0.pendingCount ≠ 0)
  let afterLink :=
    if sLink then
      ({ st1 with linkCause := false },
       ev1 ++ [IsrEv.duplexSync, IsrEv.clearLink], 1)
    else (st1, ev1, 0)
  let afterRx :=
    if sRx then
      ({ afterLink.1 with rxAbortCause := false, pcntFullCause := false },
       afterLink.2.1 ++ [IsrEv.clearRxOverflow], 1)
    else afterLink
  let infoRx := if sRx
    then { info0 with internalRxErrors := info0.internalRxErrors + 1 }
    else info0
  if sUser then
    if usingVM then
      if deferOK then
        ⟨1, afterRx.1, infoRx, afterRx.2.1 ++ [IsrEv.deferUserFn]⟩
      else
        ⟨0, { afterRx.1 with irqEnabled := true }, infoRx,
         afterRx.2.1 ++ [IsrEv.enableIRQ]⟩
    else
      let u := userISRC afterRx.1 ts pkts bytes mc pt infoRx
      ⟨1, u.1, u.2.1, afterRx.2.1 ++ u.2.2⟩
  else
    ⟨afterRx.2.2, { afterRx.1 with irqEnabled := true }, infoRx,
     afterRx.2.1 ++ [IsrEv.enableIRQ]⟩

/-- driverISR of unnamed/part_000 (TARGET_SE30 build: vmEnabled guards the
deferral). Structurally as driverISRC, except that the inline (no-VM) call
of userISR falls through to the final enable_irq and returns irq_handled. -/
def driverISRP0 (st0 : ChipState) (vmEnabled deferOK : Bool) (ts : TxStat)
    (pkts : Nat → RingDescriptor) (bytes : Nat → Nat) (mc : List EthAddr)
    (pt : List PHEntry) (info0 : DriverStats) : DispatchResult :=
  let st1 := { st0 with irqEnabled := false }
  let ev1 := [IsrEv.disableIRQ]
  let sLink := st0.linkCause
  let sRx := st0.rxAbortCause || st0.pcntFullCause
  let sUser := st0.txCause || st0.txAbortCause || decide (st0.pendingCount ≠ 0)
  let afterLink :=
    if sLink then
      ({ st1 with linkCause := false },
       ev1 ++ [IsrEv.duplexSync, IsrEv.clearLink], 1)
    else (st1, ev1, 0)
  let afterRx :=
    if sRx then
      ({ afterLink.1 with rxAbortCause := false, pcntFullCause := false },
       afterLink.2.1 ++ [IsrEv.clearRxOverflow], 1)
    else afterLink
  let infoRx := if sRx
    then { info0 with internalRxErrors := info0.internalRxErrors + 1 }
    else info0
  if sUser then
    if vmEnabled then
      if deferOK then
        ⟨1, afterRx.1, infoRx, afterRx.2.1 ++ [IsrEv.deferUserFn]⟩
      else
        ⟨0, { afterRx.1 with irqEnabled := true }, infoRx,
         afterRx.2.1 ++ [IsrEv.enableIRQ]⟩
    else
      let u := userISRP0 afterRx.1 ts pkts bytes mc pt infoRx
      ⟨1, { u.1 with irqEnabled := true }, u.2.1,
       afterRx.2.1 ++ u.2.2 ++ [IsrEv.enableIRQ]⟩
  else
    ⟨afterRx.2.2, { afterRx.1 with irqEnabled := true }, infoRx,
     afterRx.2.1 ++ [IsrEv.enableIRQ]⟩

/-- One entry of a Write Data Structure: a signed-short length and a source
pointer. -/
structure WDSElem where
  entryLength : Int
  entryPtr : Nat
deriving DecidableEq

/-- The WDS length-summation loop of doEWrite:
`do { totalLength += wds->entryLength; wds++; } while (wds->entryLength);`
The current entry is added before the next entry is tested, so the first
entry is summed unconditionally and the loop stops at the first zero-length
entry at index >= 1. Returns none when the loop would read past the supplied
entries. The accumulator is a C unsigned long. -/
def wdsTotalAux (acc : Nat) : List Int → Option Nat
  | [] => none
  | e :: rest =>
    let acc2 := (acc + intToU32 e) % 4294967296
    match rest with
    | [] => none
    | e2 :: _ => if e2 = 0 then some acc2 else wdsTotalAux acc2 rest

/-- Total frame length computed by doEWrite from a WDS entry-length list. -/
def wdsTotal (l : List Int) : Option Nat := wdsTotalAux 0 l

/-- Hardware-touching events of doEWrite, in order. -/
inductive TxEv where
  | copySeg (off : Int) (len : Int) (src : Nat)
  | writeHwAddr
  | startTx (len : Nat)
deriving DecidableEq

/-- The copy loop of doEWrite: copies the first entry unconditionally, then
continues while the next entry length is > 0 (note: the summation loop stops
on = 0). `off` is the destination offset from the transmit-buffer start.
Returns none when the loop would read past the supplied entries. -/
def copyLoopAux (off : Int) : List WDSElem → Option (List TxEv)
  | [] => none
  | e :: rest =>
    match rest with
    | [] => none
    | e2 :: _ =>
      if e2.entryLength > 0 then
        match copyLoopAux (off + e.entryLength) rest with
        | none => none
        | some evs => some (TxEv.copySeg off e.entryLength e.entryPtr :: evs)
      else some [TxEv.copySeg off e.entryLength e.entryPtr]

/-- doEWrite of unnamed/part_001: sum the WDS entry lengths; reject with
eLenErr (and no hardware write) if total + 4 exceeds 1518; copy the segments
into the transmit buffer; overwrite the source-address field with the
device hardware address; if the link is down return 0; else trigger
transmission and return 1 (operation in progress). -/
def doEWrite (wds : List WDSElem) (linkUp : Bool) : Option (Int × List TxEv) :=
  match wdsTotal (wds.map (fun e => e.entryLength)) with
  | none => none
  | some total =>
    if (total + 4) % 4294967296 > 1518 then some (eLenErr, [])
    else
      match copyLoopAux 0 wds with
      | none => none
      | some evs =>
        let evs2 := evs ++ [TxEv.writeHwAddr]
        if linkUp then some (1, evs2 ++ [TxEv.startTx total])
        else some (0, evs2)

/-- The ENetGetInfo arm of driverControl in unnamed/part_001: if the
caller's eBuffSize exceeds (short)sizeof(info), the eBuffSize field is
overwritten with that size; BlockMoveData then copies eBuffSize bytes.
Returns (eBuffSize field after the call, bytes copied). -/
def getInfoControl (infoSize : Nat) (eBuffSize : Int) : Int × Int :=
  let newSize := if eBuffSize > toShort infoSize then toShort infoSize
    else eBuffSize
  (newSize, newSize)

/-- A zeroed statistics block. -/
def stats0 : DriverStats := {}

/-- An ETXSTAT value with no flags set. -/
def ts0 : TxStat := ⟨false, 0, false, false, false⟩

/-- A quiescent descriptor, used only to fill unused descriptor streams. -/
def dQuiet : RingDescriptor :=
  ⟨0, ⟨0, false, false, false, false, false⟩, [], 0⟩

/-- Descriptor with stored little-endian length 0xF205, i.e. byte-swapped
length 1522 (frame length 1518 after removing the FCS), CRC good, unicast
match, ethertype 0x0800. -/
def dLen1522 : RingDescriptor :=
  ⟨0x1234, ⟨61957, false, true, false, false, false⟩, [1, 2, 3, 4, 5, 6],
   0x0800⟩

/-- Descriptor with byte-swapped length 104 (stored 26624), CRC good,
multicast and hash-match flags set, unicast and broadcast clear,
destination 01:00:5e:00:00:01, ethertype 0x0800. -/
def dMulti : RingDescriptor :=
  ⟨0x5678, ⟨26624, false, false, false, true, true⟩, [1, 0, 94, 0, 0, 1],
   0x0800⟩

/-- Descriptor with byte-swapped length 104, CRC good, unicast match,
ethertype 0x0800. -/
def dUni : RingDescriptor :=
  ⟨0x9abc, ⟨26624, false, true, false, false, false⟩, [2, 4, 6, 8, 10, 12],
   0x0800⟩

/-- A protocol-handler table with a non-nil handler 7 for ethertype 0x0800. -/
def ptIP : List PHEntry := [⟨0x0800, some 7⟩]

/-- A protocol-handler table whose 0x0800 slot has a nil handler. -/
def ptNil : List PHEntry := [⟨0x0800, none⟩]

/-- Chip state: transmit-complete cause pending, nothing else, interrupts
enabled. -/
def stTx : ChipState := ⟨false, false, false, true, false, 0, true⟩

/-- WDS totaling 1514 data bytes. -/
def wds1514 : List WDSElem := [⟨1514, 100⟩, ⟨0, 0⟩]

/-- WDS totaling 1515 data bytes. -/
def wds1515 : List WDSElem := [⟨1515, 100⟩, ⟨0, 0⟩]

/-- WDS totaling 20 data bytes. -/
def wds20 : List WDSElem := [⟨20, 55⟩, ⟨0, 0⟩]

/-- WDS whose very first entry is the zero-length terminator, followed by a
20-byte entry and a terminator. -/
def wdsLeadingZero : List WDSElem := [⟨0, 0⟩, ⟨20, 55⟩, ⟨0, 0⟩]

/- Helper lemmas: the high-water-mark update touches no other counter. -/

@[simp] theorem updateHWM_fcsErrors (pp bp : Nat) (i : DriverStats) :
    (updateHWM pp bp i).fcsErrors = i.fcsErrors := by
  simp only [updateHWM]; split <;> split <;> rfl

@[simp] theorem updateHWM_rxRunt (pp bp : Nat) (i : DriverStats) :
    (updateHWM pp bp i).rxRunt = i.rxRunt := by
  simp only [updateHWM]; split <;> split <;> rfl

@[simp] theorem updateHWM_rxTooLong (pp bp : Nat) (i : DriverStats) :
    (updateHWM pp bp i).rxTooLong = i.rxTooLong := by
  simp only [updateHWM]; split <;> split <;> rfl

@[simp] theorem updateHWM_rxUnwanted (pp bp : Nat) (i : DriverStats) :
    (updateHWM pp bp i).rxUnwanted = i.rxUnwanted := by
  simp only [updateHWM]; split <;> split <;> rfl

@[simp] theorem updateHWM_rxUnknownProto (pp bp : Nat) (i : DriverStats) :
    (updateHWM pp bp i).rxUnknownProto = i.rxUnknownProto := by
  simp only [updateHWM]; split <;> split <;> rfl

@[simp] theorem updateHWM_rxFrameCount (pp bp : Nat) (i : DriverStats) :
    (updateHWM pp bp i).rxFrameCount = i.rxFrameCount := by
  simp only [updateHWM]; split <;> split <;> rfl

@[simp] theorem updateHWM_broadcastRxFrameCount (pp bp : Nat) (i : DriverStats) :
    (updateHWM pp bp i).broadcastRxFrameCount = i.broadcastRxFrameCount := by
  simp only [updateHWM]; split <;> split <;> rfl

@[simp] theorem updateHWM_multicastRxFrameCount (pp bp : Nat) (i : DriverStats) :
    (updateHWM pp bp i).multicastRxFrameCount = i.multicastRxFrameCount := by
  simp only [updateHWM]; split <;> split <;> rfl

/- Helper lemmas: the accept block leaves the drop epilogue and the
rejection counters untouched. -/

@[simp] theorem acceptP0_rxptrUpdates (d : RingDescriptor) (pt : List PHEntry)
    (pl : Nat) (fx : RxEffects) (i : DriverStats) :
    (acceptP0 d pt pl fx i).2.rxptrUpdates = fx.rxptrUpdates := by
  unfold acceptP0
  rcases hf : (if d.protocol < 0x600 then findPH pt phProtocolPhaseII
    else findPH pt d.protocol) with _ | ⟨ety, _ | hh⟩ <;> rfl

@[simp] theorem acceptP0_decrements (d : RingDescriptor) (pt : List PHEntry)
    (pl : Nat) (fx : RxEffects) (i : DriverStats) :
    (acceptP0 d pt pl fx i).2.decrements = fx.decrements := by
  unfold acceptP0
  rcases hf : (if d.protocol < 0x600 then findPH pt phProtocolPhaseII
    else findPH pt d.protocol) with _ | ⟨ety, _ | hh⟩ <;> rfl

@[simp] theorem acceptP0_rxRunt (d : RingDescriptor) (pt : List PHEntry)
    (pl : Nat) (fx : RxEffects) (i : DriverStats) :
    (acceptP0 d pt pl fx i).1.rxRunt = i.rxRunt := by
  unfold acceptP0
  rcases hf : (if d.protocol < 0x600 then findPH pt phProtocolPhaseII
    else findPH pt d.protocol) with _ | ⟨ety, _ | hh⟩ <;> rfl

@[simp] theorem acceptP0_rxTooLong (d : RingDescriptor) (pt : List PHEntry)
    (pl : Nat) (fx : RxEffects) (i : DriverStats) :
    (acceptP0 d pt pl fx i).1.rxTooLong = i.rxTooLong := by
  unfold acceptP0
  rcases hf : (if d.protocol < 0x600 then findPH pt phProtocolPhaseII
    else findPH pt d.protocol) with _ | ⟨ety, _ | hh⟩ <;> rfl

@[simp] theorem acceptP0_rxUnwanted (d : RingDescriptor) (pt : List PHEntry)
    (pl : Nat) (fx : RxEffects) (i : DriverStats) :
    (acceptP0 d pt pl fx i).1.rxUnwanted = i.rxUnwanted := by
  unfold acceptP0
  rcases hf : (if d.protocol < 0x600 then findPH pt phProtocolPhaseII
    else findPH pt d.protocol) with _ | ⟨ety, _ | hh⟩ <;> rfl

@[simp] theorem acceptP0_multicastRxFrameCount (d : RingDescriptor)
    (pt : List PHEntry) (pl : Nat) (fx : RxEffects) (i : DriverStats) :
    (acceptP0 d pt pl fx i).1.multicastRxFrameCount
      = i.multicastRxFrameCount := by
  unfold acceptP0
  rcases hf : (if d.protocol < 0x600 then findPH pt phProtocolPhaseII
    else findPH pt d.protocol) with _ | ⟨ety, _ | hh⟩ <;> rfl

@[simp] theorem acceptC_rxptrUpdates (d : RingDescriptor) (pt : List PHEntry)
    (pl : Nat) (fx : RxEffects) (i : DriverStats) :
    (acceptC d pt pl fx i).2.rxptrUpdates = fx.rxptrUpdates := by
  unfold acceptC
  rcases hf : (if d.protocol < 0x600 then findPH pt phProtocolPhaseII
    else findPH pt d.protocol) with _ | ⟨ety, _ | hh⟩ <;> rfl

@[simp] theorem acceptC_decrements (d : RingDescriptor) (pt : List PHEntry)
    (pl : Nat) (fx : RxEffects) (i : DriverStats) :
    (acceptC d pt pl fx i).2.decrements = fx.decrements := by
  unfold acceptC
  rcases hf : (if d.protocol < 0x600 then findPH pt phProtocolPhaseII
    else findPH pt d.protocol) with _ | ⟨ety, _ | hh⟩ <;> rfl

@[simp] theorem acceptC_rxRunt (d : RingDescriptor) (pt : List PHEntry)
    (pl : Nat) (fx : RxEffects) (i : DriverStats) :
    (acceptC d pt pl fx i).1.rxRunt = i.rxRunt := by
  unfold acceptC
  rcases hf : (if d.protocol < 0x600 then findPH pt phProtocolPhaseII
    else findPH pt d.protocol) with _ | ⟨ety, _ | hh⟩ <;> rfl

@[simp] theorem acceptC_rxTooLong (d : RingDescriptor) (pt : List PHEntry)
    (pl : Nat) (fx : RxEffects) (i : DriverStats) :
    (acceptC d pt pl fx i).1.rxTooLong = i.rxTooLong := by
  unfold acceptC
  rcases hf : (if d.protocol < 0x600 then findPH pt phProtocolPhaseII
    else findPH pt d.protocol) with _ | ⟨ety, _ | hh⟩ <;> rfl

@[simp] theorem acceptC_rxUnwanted (d : RingDescriptor) (pt : List PHEntry)
    (pl : Nat) (fx : RxEffects) (i : DriverStats) :
    (acceptC d pt pl fx i).1.rxUnwanted = i.rxUnwanted := by
  unfold acceptC
  rcases hf : (if d.protocol < 0x600 then findPH pt phProtocolPhaseII
    else findPH pt d.protocol) with _ | ⟨ety, _ | hh⟩ <;> rfl

@[simp] theorem acceptC_multicastRxFrameCount (d : RingDescriptor)
    (pt : List PHEntry) (pl : Nat) (fx : RxEffects) (i : DriverStats) :
    (acceptC d pt pl fx i).1.multicastRxFrameCount
      = i.multicastRxFrameCount := by
  unfold acceptC
  rcases hf : (if d.protocol < 0x600 then findPH pt phProtocolPhaseII
    else findPH pt d.protocol) with _ | ⟨ety, _ | hh⟩ <;> rfl

theorem acceptP0_calls (d : RingDescriptor) (pt : List PHEntry) (pl : Nat)
    (fx : RxEffects) (i : DriverStats) :
    (acceptP0 d pt pl fx i).2.handlerCalls = fx.handlerCalls ∨
    ∃ h, (acceptP0 d pt pl fx i).2.handlerCalls = [(h, sub16 pl 14)] := by
  unfold acceptP0
  rcases hf : (if d.protocol < 0x600 then findPH pt phProtocolPhaseII
    else findPH pt d.protocol) with _ | ⟨ety, _ | hh⟩
  · left; rfl
  · left; rfl
  · right; exact ⟨hh, rfl⟩

theorem acceptC_calls (d : RingDescriptor) (pt : List PHEntry) (pl : Nat)
    (fx : RxEffects) (i : DriverStats) :
    (acceptC d pt pl fx i).2.handlerCalls = fx.handlerCalls ∨
    ∃ h, (acceptC d pt pl fx i).2.handlerCalls = [(h, sub16 pl 18)] := by
  unfold acceptC
  rcases hf : (if d.protocol < 0x600 then findPH pt phProtocolPhaseII
    else findPH pt d.protocol) with _ | ⟨ety, _ | hh⟩
  · left; rfl
  · left; rfl
  · right; exact ⟨hh, rfl⟩

theorem acceptP0_unknown (d : RingDescriptor) (pt : List PHEntry) (pl : Nat)
    (fx : RxEffects) (i : DriverStats)
    (h : (if d.protocol < 0x600 then findPH pt phProtocolPhaseII
           else findPH pt d.protocol) = none ∨
         ∃ ety, (if d.protocol < 0x600 then findPH pt phProtocolPhaseII
           else findPH pt d.protocol) = some ⟨ety, none⟩) :
    acceptP0 d pt pl fx i
      = ({ i with rxUnknownProto := i.rxUnknownProto + 1 }, fx) := by
  unfold acceptP0
  rcases h with h | ⟨ety, h⟩ <;> rw [h]

theorem acceptC_unknown (d : RingDescriptor) (pt : List PHEntry) (pl : Nat)
    (fx : RxEffects) (i : DriverStats)
    (h : (if d.protocol < 0x600 then findPH pt phProtocolPhaseII
           else findPH pt d.protocol) = none ∨
         ∃ ety, (if d.protocol < 0x600 then findPH pt phProtocolPhaseII
           else findPH pt d.protocol) = some ⟨ety, none⟩) :
    acceptC d pt pl fx i = (i, fx) := by
  unfold acceptC
  rcases h with h | ⟨ety, h⟩ <;> rw [h]

/-- Claim C1: on every branch of handlePacket (both source variants), the
receive ring read pointer is advanced exactly once, to the descriptor's
byte-swapped stored next-packet location, and the pending-packet counter is
decremented exactly once. -/
theorem C1_advance_and_decrement_once (d : RingDescriptor) (pp bp : Nat)
    (mc : List EthAddr) (pt : List PHEntry) (info : DriverStats) :
    ((handlePacketP0 d pp bp mc pt info).2.rxptrUpdates = [swap16 d.nextPkt_le] ∧
     (handlePacketP0 d pp bp mc pt info).2.decrements = 1) ∧
    ((handlePacketC d pp bp mc pt info).2.rxptrUpdates = [swap16 d.nextPkt_le] ∧
     (handlePacketC d pp bp mc pt info).2.decrements = 1) := by
  constructor
  · simp only [handlePacketP0]
    split_ifs <;> simp
  · simp only [handlePacketC]
    split_ifs <;> simp

/-- Claim C2, counterexample: in the isr.c variant the length checks do not
use the byte-swapped RSV length minus 4. For the stored little-endian length
0xF205 (byte-swapped 1522, i.e. frame length 1518 after removing the FCS),
the claim predicts the oversize check 1518 > 1518 fails and the frame is not
counted too long; the code compares 1522 > 1518 and counts it too long,
invoking no handler. -/
theorem C2_cex :
    sub16 (swap16 dLen1522.rsv.pkt_len_le) 4 = 1518 ∧
    ¬ (1518 > 1518) ∧
    (handlePacketC dLen1522 0 0 [] ptIP stats0).1.rxTooLong = 1 ∧
    (handlePacketC dLen1522 0 0 [] ptIP stats0).2.handlerCalls = [] := by
  decide

set_option maxHeartbeats 1600000 in
set_option maxRecDepth 8000 in
/-- Claim C2, amended: in the part_000 variant the frame length is the
byte-swapped RSV length minus 4 and is used for the runt/oversize checks
(against 60/1514) and for the handler payload (frame length minus the
14-byte header). In the isr.c variant the handler payload is the byte-swapped
length minus 18, consistent with frame length (swap - 4) minus the header,
but the runt/oversize checks use the byte-swapped length without subtracting
4 (against the FCS-inclusive bounds 64/1518). -/
theorem C2_frame_length_decode (d : RingDescriptor) (pp bp : Nat)
    (mc : List EthAddr) (pt : List PHEntry) (info : DriverStats) :
    ((handlePacketP0 d pp bp mc pt info).2.handlerCalls = [] ∨
      ∃ h, (handlePacketP0 d pp bp mc pt info).2.handlerCalls
        = [(h, sub16 (sub16 (swap16 d.rsv.pkt_len_le) 4) 14)]) ∧
    ((handlePacketC d pp bp mc pt info).2.handlerCalls = [] ∨
      ∃ h, (handlePacketC d pp bp mc pt info).2.handlerCalls
        = [(h, sub16 (swap16 d.rsv.pkt_len_le) 18)]) ∧
    (handlePacketP0 d pp bp mc pt info).1.rxRunt = info.rxRunt +
      (if d.rsv.crcErr = false ∧ sub16 (swap16 d.rsv.pkt_len_le) 4 < 60
        then 1 else 0) ∧
    (handlePacketP0 d pp bp mc pt info).1.rxTooLong = info.rxTooLong +
      (if d.rsv.crcErr = false ∧ ¬ sub16 (swap16 d.rsv.pkt_len_le) 4 < 60 ∧
          sub16 (swap16 d.rsv.pkt_len_le) 4 > 1514 then 1 else 0) ∧
    (handlePacketC d pp bp mc pt info).1.rxRunt = info.rxRunt +
      (if d.rsv.crcErr = false ∧ swap16 d.rsv.pkt_len_le < 64
        then 1 else 0) ∧
    (handlePacketC d pp bp mc pt info).1.rxTooLong = info.rxTooLong +
      (if d.rsv.crcErr = false ∧ ¬ swap16 d.rsv.pkt_len_le < 64 ∧
          swap16 d.rsv.pkt_len_le > 1518 then 1 else 0) := by
  refine ⟨?_, ?_, ?_, ?_, ?_, ?_⟩
  · simp only [handlePacketP0]
    split_ifs <;>
      first
        | (left; rfl)
        | exact acceptP0_calls _ _ _ _ _
  · simp only [handlePacketC]
    split_ifs <;>
      first
        | (left; rfl)
        | exact acceptC_calls _ _ _ _ _
  · simp only [handlePacketP0]
    split_ifs <;> simp_all
  · simp only [handlePacketP0]
    split_ifs <;> simp_all
  · simp only [handlePacketC]
    split_ifs <;> simp_all
  · simp only [handlePacketC]
    split_ifs <;> simp_all

/-- Claim C3, counterexample: a scatter list whose segment lengths total
1515 bytes is rejected (1515 + 4 = 1519 > 1518), returning eLenErr with no
hardware write, contrary to the claim that it is accepted and transmission
started. -/
theorem C3_cex :
    doEWrite wds1515 true = some (eLenErr, []) ∧ eLenErr < 0 := by
  decide

/-- Claim C3, amended: doEWrite accepts a scatter list whose segment lengths
total 1514 bytes (1514 + 4 = 1518, not above 1518) and starts transmission,
while any scatter list whose total plus 4 exceeds 1518 - in particular one
totaling 1515 bytes - is rejected with eLenErr and no write to the
controller hardware occurs. -/
theorem C3_length_limit (wds : List WDSElem) (total : Nat)
    (h : wdsTotal (wds.map (fun e => e.entryLength)) = some total) :
    doEWrite wds1514 true
      = some (1, [TxEv.copySeg 0 1514 100, TxEv.writeHwAddr,
                  TxEv.startTx 1514]) ∧
    doEWrite wds1515 true = some (eLenErr, []) ∧
    ((total + 4) % 4294967296 > 1518 →
      doEWrite wds true = some (eLenErr, [])) := by
  refine ⟨by decide, by decide, fun hgt => ?_⟩
  simp [doEWrite, h, hgt]

/-- Witness for C3_length_limit at the concrete 1515-byte scatter list. -/
theorem C3_length_limit_witness :
    doEWrite wds1515 true = some (eLenErr, []) :=
  (C3_length_limit wds1515 1515 (by decide)).2.2 (by decide)

/-- Claim C4, counterexample: in the part_000 variant a frame whose status
vector has the multicast and hash-match bits set (unicast and broadcast
clear) and whose destination matches no Multicast Filter Table entry (the
table is empty) is nevertheless accepted, counted as multicast, and handed
to the protocol handler, instead of being counted unwanted and dropped. -/
theorem C4_cex :
    findMulticastEntry [] dMulti.dest = false ∧
    (handlePacketP0 dMulti 0 0 [] ptIP stats0).1.multicastRxFrameCount = 1 ∧
    (handlePacketP0 dMulti 0 0 [] ptIP stats0).1.rxUnwanted = 0 ∧
    (handlePacketP0 dMulti 0 0 [] ptIP stats0).2.handlerCalls = [(7, 86)] := by
  decide

/-- Claim C4, amended: in the isr.c variant a multicast/hash-match frame is
accepted and counted as multicast only when the destination exactly matches
a Multicast Filter Table entry, and otherwise counted unwanted and dropped
without a handler call, as the claim states; the part_000 variant accepts
and counts it as multicast without consulting the table. -/
theorem C4_multicast_confirmation (d : RingDescriptor) (pp bp : Nat)
    (mc : List EthAddr) (pt : List PHEntry) (info : DriverStats)
    (hcrc : d.rsv.crcErr = false) (huc : d.rsv.unicast = false)
    (hbc : d.rsv.broadcast = false) (hmc : d.rsv.multicast = true)
    (hhm : d.rsv.hashMatch = true)
    (hlo : ¬ swap16 d.rsv.pkt_len_le < 64)
    (hhi : ¬ swap16 d.rsv.pkt_len_le > 1518)
    (plo : ¬ sub16 (swap16 d.rsv.pkt_len_le) 4 < 60)
    (phi : ¬ sub16 (swap16 d.rsv.pkt_len_le) 4 > 1514) :
    (findMulticastEntry mc d.dest = false →
      (handlePacketC d pp bp mc pt info).1.rxUnwanted = info.rxUnwanted + 1 ∧
      (handlePacketC d pp bp mc pt info).1.multicastRxFrameCount
        = info.multicastRxFrameCount ∧
      (handlePacketC d pp bp mc pt info).2.handlerCalls = []) ∧
    (findMulticastEntry mc d.dest = true →
      (handlePacketC d pp bp mc pt info).1.multicastRxFrameCount
        = info.multicastRxFrameCount + 1 ∧
      (handlePacketC d pp bp mc pt info).1.rxUnwanted = info.rxUnwanted) ∧
    (handlePacketP0 d pp bp mc pt info).1.multicastRxFrameCount
      = info.multicastRxFrameCount + 1 ∧
    (handlePacketP0 d pp bp mc pt info).1.rxUnwanted = info.rxUnwanted := by
  refine ⟨fun hfind => ?_, fun hfind => ?_, ?_, ?_⟩
  · simp [handlePacketC, hcrc, huc, hbc, hmc, hhm, hlo, hhi, hfind]
  · simp [handlePacketC, hcrc, huc, hbc, hmc, hhm, hlo, hhi, hfind]
  · simp [handlePacketP0, hcrc, huc, hbc, hmc, hhm, plo, phi]
  · simp [handlePacketP0, hcrc, huc, hbc, hmc, hhm, plo, phi]

/-- Witness for C4_multicast_confirmation: the concrete multicast frame
dMulti against an empty multicast table is counted unwanted and dropped by
the isr.c variant. -/
theorem C4_multicast_confirmation_witness :
    (handlePacketC dMulti 0 0 [] ptIP stats0).1.rxUnwanted
      = stats0.rxUnwanted + 1 ∧
    (handlePacketC dMulti 0 0 [] ptIP stats0).1.multicastRxFrameCount
      = stats0.multicastRxFrameCount ∧
    (handlePacketC dMulti 0 0 [] ptIP stats0).2.handlerCalls = [] :=
  (C4_multicast_confirmation dMulti 0 0 [] ptIP stats0 (by decide) (by decide)
    (by decide) (by decide) (by decide) (by decide) (by decide) (by decide)
    (by decide)).1 (by decide)

/-- Claim C5: at a transmit-complete interrupt the part_000 bottom half
clears the IRQ_TX cause bit before invoking IODone, as the claim states; the
isr.c variant invokes IODone first and clears the cause bit only afterwards,
contradicting the ordering its own later revision documents as required. -/
theorem C5_clear_before_iodone :
    (userISRC stTx ts0 (fun _ => dQuiet) (fun _ => 0) [] [] stats0).2.2
      = [IsrEv.ioDone noErr, IsrEv.clearTx, IsrEv.enableIRQ] ∧
    (userISRP0 stTx ts0 (fun _ => dQuiet) (fun _ => 0) [] [] stats0).2.2
      = [IsrEv.clearTx, IsrEv.ioDone noErr, IsrEv.enableIRQ] := by
  decide

/-- On the deferral-refusal path, isr.c's top half returns 0 with the
tx/tx-abort/pending causes untouched and interrupts re-enabled. -/
theorem driverISRC_refused (st : ChipState) (ts : TxStat)
    (pkts : Nat → RingDescriptor) (bytes : Nat → Nat) (mc : List EthAddr)
    (pt : List PHEntry) (info : DriverStats)
    (husr : (st.txCause || st.txAbortCause
      || decide (st.pendingCount ≠ 0)) = true) :
    (driverISRC st true false ts pkts bytes mc pt info).ret = 0 ∧
    (driverISRC st true false ts pkts bytes mc pt info).chip.txCause
      = st.txCause ∧
    (driverISRC st true false ts pkts bytes mc pt info).chip.txAbortCause
      = st.txAbortCause ∧
    (driverISRC st true false ts pkts bytes mc pt info).chip.pendingCount
      = st.pendingCount ∧
    (driverISRC st true false ts pkts bytes mc pt info).chip.irqEnabled
      = true := by
  simp only [driverISRC, husr]
  split_ifs <;>
    first
      | exact ⟨rfl, rfl, rfl, rfl, rfl⟩
      | (exfalso; assumption)

/-- On the deferral-refusal path, part_000's top half behaves as isr.c's. -/
theorem driverISRP0_refused (st : ChipState) (ts : TxStat)
    (pkts : Nat → RingDescriptor) (bytes : Nat → Nat) (mc : List EthAddr)
    (pt : List PHEntry) (info : DriverStats)
    (husr : (st.txCause || st.txAbortCause
      || decide (st.pendingCount ≠ 0)) = true) :
    (driverISRP0 st true false ts pkts bytes mc pt info).ret = 0 ∧
    (driverISRP0 st true false ts pkts bytes mc pt info).chip.txCause
      = st.txCause ∧
    (driverISRP0 st true false ts pkts bytes mc pt info).chip.txAbortCause
      = st.txAbortCause ∧
    (driverISRP0 st true false ts pkts bytes mc pt info).chip.pendingCount
      = st.pendingCount ∧
    (driverISRP0 st true false ts pkts bytes mc pt info).chip.irqEnabled
      = true := by
  simp only [driverISRP0, husr]
  split_ifs <;>
    first
      | exact ⟨rfl, rfl, rfl, rfl, rfl⟩
      | (exfalso; assumption)

/-- Claim C6, counterexample: when the deferral of the bottom half is
refused, the dispatcher returns 0 (not handled) and leaves the transmit
cause pending, but it re-enables the controller interrupts rather than
leaving them masked as the claim states. -/
theorem C6_cex :
    (driverISRC stTx true false ts0 (fun _ => dQuiet) (fun _ => 0) [] []
      stats0).ret = 0 ∧
    (driverISRC stTx true false ts0 (fun _ => dQuiet) (fun _ => 0) [] []
      stats0).chip.irqEnabled = true ∧
    (driverISRC stTx true false ts0 (fun _ => dQuiet) (fun _ => 0) [] []
      stats0).chip.txCause = true := by
  decide

/-- Claim C6, amended: in both variants, when virtual memory is active and
the deferral request is refused during a transmit/packet-pending cause, the
dispatcher returns 0 (not handled, not fatal) with those cause bits left
unacknowledged and the controller interrupts re-enabled (not masked), so
that a subsequent dispatch invocation re-observes the same pending cause and
again returns 0. -/
theorem C6_defer_refusal (st : ChipState) (ts : TxStat)
    (pkts : Nat → RingDescriptor) (bytes : Nat → Nat) (mc : List EthAddr)
    (pt : List PHEntry) (info : DriverStats)
    (husr : (st.txCause || st.txAbortCause
      || decide (st.pendingCount ≠ 0)) = true) :
    ((driverISRC st true false ts pkts bytes mc pt info).ret = 0 ∧
     (driverISRC st true false ts pkts bytes mc pt info).chip.txCause
       = st.txCause ∧
     (driverISRC st true false ts pkts bytes mc pt info).chip.txAbortCause
       = st.txAbortCause ∧
     (driverISRC st true false ts pkts bytes mc pt info).chip.pendingCount
       = st.pendingCount ∧
     (driverISRC st true false ts pkts bytes mc pt info).chip.irqEnabled
       = true ∧
     (driverISRC (driverISRC st true false ts pkts bytes mc pt info).chip
       true false ts pkts bytes mc pt
       (driverISRC st true false ts pkts bytes mc pt info).info).ret = 0) ∧
    ((driverISRP0 st true false ts pkts bytes mc pt info).ret = 0 ∧
     (driverISRP0 st true false ts pkts bytes mc pt info).chip.txCause
       = st.txCause ∧
     (driverISRP0 st true false ts pkts bytes mc pt info).chip.txAbortCause
       = st.txAbortCause ∧
     (driverISRP0 st true false ts pkts bytes mc pt info).chip.pendingCount
       = st.pendingCount ∧
     (driverISRP0 st true false ts pkts bytes mc pt info).chip.irqEnabled
       = true ∧
     (driverISRP0 (driverISRP0 st true false ts pkts bytes mc pt info).chip
       true false ts pkts bytes mc pt
       (driverISRP0 st true false ts pkts bytes mc pt info).info).ret
       = 0) := by
  obtain ⟨a1, a2, a3, a4, a5⟩ :=
    driverISRC_refused st ts pkts bytes mc pt info husr
  obtain ⟨b1, b2, b3, b4, b5⟩ :=
    driverISRP0_refused st ts pkts bytes mc pt info husr
  refine ⟨⟨a1, a2, a3, a4, a5, ?_⟩, ⟨b1, b2, b3, b4, b5, ?_⟩⟩
  · exact (driverISRC_refused _ ts pkts bytes mc pt _
      (by rw [a2, a3, a4]; exact husr)).1
  · exact (driverISRP0_refused _ ts pkts bytes mc pt _
      (by rw [b2, b3, b4]; exact husr)).1

/-- Witness for C6_defer_refusal at a concrete pending-transmit state. -/
theorem C6_defer_refusal_witness :
    (driverISRC stTx true false ts0 (fun _ => dQuiet) (fun _ => 0) [] []
      stats0).ret = 0 ∧
    (driverISRP0 stTx true false ts0 (fun _ => dQuiet) (fun _ => 0) [] []
      stats0).ret = 0 :=
  ⟨(C6_defer_refusal stTx ts0 (fun _ => dQuiet) (fun _ => 0) [] [] stats0
      (by decide)).1.1,
   (C6_defer_refusal stTx ts0 (fun _ => dQuiet) (fun _ => 0) [] [] stats0
      (by decide)).2.1⟩

/-- Claim C7, counterexample: in the isr.c variant a unicast frame whose
protocol has no registry entry is dropped (ring advanced, count decremented,
no handler call) but no unknown-protocol counter - indeed no counter at
all - is incremented: the final statistics equal the initial ones. -/
theorem C7_cex :
    findPH [] dUni.protocol = none ∧
    (handlePacketC dUni 0 0 [] [] stats0).1 = stats0 ∧
    (handlePacketC dUni 0 0 [] [] stats0).2
      = ⟨[swap16 dUni.nextPkt_le], 1, []⟩ := by
  decide

/-- Claim C7, amended: for an accepted frame whose protocol lookup misses or
yields a nil handler capability, the part_000 variant increments the
unknown-protocol counter and drops the frame without invoking a handler,
treating both cases identically; the isr.c variant also drops without a
handler call in both cases, but increments no counter. -/
theorem C7_unknown_protocol (d : RingDescriptor) (pp bp : Nat)
    (mc : List EthAddr) (pt : List PHEntry) (info : DriverStats)
    (hcrc : d.rsv.crcErr = false) (huc : d.rsv.unicast = true)
    (hlo : ¬ swap16 d.rsv.pkt_len_le < 64)
    (hhi : ¬ swap16 d.rsv.pkt_len_le > 1518)
    (plo : ¬ sub16 (swap16 d.rsv.pkt_len_le) 4 < 60)
    (phi : ¬ sub16 (swap16 d.rsv.pkt_len_le) 4 > 1514)
    (hslot : (if d.protocol < 0x600 then findPH pt phProtocolPhaseII
        else findPH pt d.protocol) = none ∨
      ∃ ety, (if d.protocol < 0x600 then findPH pt phProtocolPhaseII
        else findPH pt d.protocol) = some ⟨ety, none⟩) :
    (handlePacketP0 d pp bp mc pt info).1.rxUnknownProto
      = info.rxUnknownProto + 1 ∧
    (handlePacketP0 d pp bp mc pt info).1.rxFrameCount = info.rxFrameCount ∧
    (handlePacketP0 d pp bp mc pt info).2
      = ⟨[swap16 d.nextPkt_le], 1, []⟩ ∧
    (handlePacketC d pp bp mc pt info).1 = updateHWM pp bp info ∧
    (handlePacketC d pp bp mc pt info).2
      = ⟨[swap16 d.nextPkt_le], 1, []⟩ := by
  have hP := acceptP0_unknown d pt (sub16 (swap16 d.rsv.pkt_len_le) 4)
    ⟨[swap16 d.nextPkt_le], 1, []⟩ (updateHWM pp bp info) hslot
  have hC := acceptC_unknown d pt (swap16 d.rsv.pkt_len_le)
    ⟨[swap16 d.nextPkt_le], 1, []⟩ (updateHWM pp bp info) hslot
  simp only [handlePacketP0, handlePacketC]
  simp [hcrc, huc, hlo, hhi, plo, phi, hP, hC]

/-- Witness for C7_unknown_protocol: the concrete unicast frame dUni with an
empty registry. -/
theorem C7_unknown_protocol_witness :
    (handlePacketP0 dUni 0 0 [] [] stats0).1.rxUnknownProto
      = stats0.rxUnknownProto + 1 ∧
    (handlePacketC dUni 0 0 [] [] stats0).1 = updateHWM 0 0 stats0 :=
  ⟨(C7_unknown_protocol dUni 0 0 [] [] stats0 (by decide) (by decide)
      (by decide) (by decide) (by decide) (by decide)
      (Or.inl (by decide))).1,
   (C7_unknown_protocol dUni 0 0 [] [] stats0 (by decide) (by decide)
      (by decide) (by decide) (by decide) (by decide)
      (Or.inl (by decide))).2.2.2.1⟩

/-- Claim C8: with the link down, doEWrite skips triggering transmission but
returns 0 (noErr, the synchronous-success code, per the TODO in the source)
rather than a "no link" error indication, and it has already copied the
frame into the controller's transmit buffer before checking the link. -/
theorem C8_link_down_returns_zero :
    doEWrite wds20 false
      = some (noErr, [TxEv.copySeg 0 20 55, TxEv.writeHwAddr]) ∧
    (0 : Int) ≤ noErr := by
  decide

/-- Claim C9: the WDS summation loop adds the first entry before testing the
terminator, so a list whose first entry is the zero-length terminator is not
treated as empty: the scan reads on past it (for the singleton terminator
list it runs off the supplied entries), sums the following entries, and
doEWrite copies and transmits data from entries located past the leading
terminator. -/
theorem C9_leading_zero_scan :
    wdsTotal [(0 : Int)] = none ∧
    (∀ (x : Int) (rest : List Int), x ≠ 0 →
      wdsTotal (0 :: x :: 0 :: rest) = some (intToU32 x)) ∧
    doEWrite wdsLeadingZero true
      = some (1, [TxEv.copySeg 0 0 0, TxEv.copySeg 0 20 55, TxEv.writeHwAddr,
                  TxEv.startTx 20]) := by
  refine ⟨by decide, ?_, by decide⟩
  intro x rest hx
  have h2 : (0 : Int) ≤ x % 4294967296 := Int.emod_nonneg x (by norm_num)
  have h3 : x % 4294967296 < 4294967296 := Int.emod_lt_of_pos x (by norm_num)
  have h1 : (x % 4294967296).toNat < 4294967296 := by omega
  simp [wdsTotal, wdsTotalAux, hx, intToU32, Nat.mod_eq_of_lt h1]

/-- Witness for C9_leading_zero_scan: the summation over the concrete list
with a leading zero-length entry reads and sums the 20-byte entry after it. -/
theorem C9_leading_zero_scan_witness :
    wdsTotal [(0 : Int), 20, 0] = some (intToU32 20) :=
  (C9_leading_zero_scan).2.1 20 [] (by decide)

/-- Claim C10: the get-info control call clamps the copy length to the info
block size: a larger stated buffer size is overwritten with the info block
size and exactly that many bytes are copied; a smaller or equal stated size
is left unchanged and exactly that many bytes are copied. -/
theorem C10_get_info (infoSize : Nat) (eBuffSize : Int)
    (hsz : infoSize ≤ 32767) :
    (eBuffSize > (infoSize : Int) →
      getInfoControl infoSize eBuffSize
        = ((infoSize : Int), (infoSize : Int))) ∧
    (eBuffSize ≤ (infoSize : Int) →
      getInfoControl infoSize eBuffSize = (eBuffSize, eBuffSize)) := by
  have hts : toShort infoSize = (infoSize : Int) := by
    unfold toShort
    omega
  constructor <;> intro h
  · simp only [getInfoControl, hts]
    rw [if_pos h]
  · simp only [getInfoControl, hts]
    rw [if_neg (not_lt.mpr h)]

/-- Witness for C10_get_info at a 100-byte info block with stated sizes 200
and 50. -/
theorem C10_get_info_witness :
    getInfoControl 100 200 = (100, 100) ∧ getInfoControl 100 50 = (50, 50) :=
  ⟨(C10_get_info 100 200 (by decide)).1 (by decide),
   (C10_get_info 100 50 (by decide)).2 (by decide)⟩

end SEthernet

